import Mathlib

/-!
Verification of the per-guild music queue engine of
`src/cogs/music.py` (class `MusicPlayer`, registry method `Music.get_player`).

The Python module is embedded shallowly:

* `Track` mirrors the `Track` dataclass (the `discord.Member` requester is
  an opaque reference, modelled as a `Nat` identity).
* `VoiceClient` models the slice of the external `discord.VoiceClient`
  state that `MusicPlayer` observes: `is_connected()` and the playback
  status driving `is_playing()` / `is_paused()` (in `discord.py`,
  `is_playing()` is `False` while the player is paused).
* `MusicPlayer` carries the engine state: the `pending` deque (a `List`,
  head = left end), the two `asyncio.Event`s `queue_event` and `next`
  (an event is a latched boolean flag), the `current` slot and the
  optional `voice` handle. The `volume` float and the metrics monitor
  are omitted: no claim mentions them and they do not influence control
  flow.
* Methods `set_voice`, `skip_current`, `add_track`, `clear_queue`,
  `queue_items`, `queue_size` and `_wait_for_track` are translated
  line by line as state transformers.
* One iteration of the consumer coroutine `player_loop` (lines 93-149)
  is `player_loop_iter`; the outcomes of the external calls that can
  raise (`FFmpegPCMAudio`/`voice.play`, `source.cleanup`) are supplied
  by an `IterEnv`. `run_loop` iterates the loop with fuel.
-/

inductive PlaybackStatus
  | idle
  | playing
  | paused
deriving Repr, DecidableEq

/-- The slice of the external `discord.VoiceClient` observed by the engine:
connection flag plus playback status. In `discord.py`, `is_playing()` is
true only while actively streaming (false when paused or idle), and
`is_paused()` is true only while paused. -/
structure VoiceClient where
  connected : Bool
  status : PlaybackStatus
deriving Repr, DecidableEq

def VoiceClient.is_connected (v : VoiceClient) : Bool :=
  v.connected

def VoiceClient.is_playing (v : VoiceClient) : Bool :=
  v.status == PlaybackStatus.playing

def VoiceClient.is_paused (v : VoiceClient) : Bool :=
  v.status == PlaybackStatus.paused

/-- `VoiceClient.stop()`: playback ends immediately. -/
def VoiceClient.stop (v : VoiceClient) : VoiceClient :=
  { v with status := PlaybackStatus.idle }

/-- `VoiceClient.pause()`: suspends the in-flight playback. -/
def VoiceClient.pause (v : VoiceClient) : VoiceClient :=
  { v with status := PlaybackStatus.paused }

/-- The `Track` dataclass of `src/cogs/music.py` (lines 45-51). -/
structure Track where
  title : String
  stream_url : String
  webpage_url : String
  duration : Option Nat
  requester : Nat
deriving Repr, DecidableEq

/-- State of one `MusicPlayer` (lines 54-66): the `pending` deque
(list head = left end of the deque), the latched `asyncio.Event` flags
`queue_event` and `next`, the `current` slot and the optional voice
handle. -/
structure MusicPlayer where
  pending : List Track
  queue_event : Bool
  next : Bool
  current : Option Track
  voice : Option VoiceClient
deriving Repr, DecidableEq

/-- `MusicPlayer.set_voice` (lines 68-69). -/
def MusicPlayer.set_voice (p : MusicPlayer) (v : VoiceClient) : MusicPlayer :=
  { p with voice := some v }

/-- `MusicPlayer.skip_current` (lines 71-76): if `self.voice` is set and
`self.voice.is_playing()`, stop the voice client, set the `next` event and
return `True`; otherwise return `False`. -/
def MusicPlayer.skip_current (p : MusicPlayer) : Bool × MusicPlayer :=
  match p.voice with
  | some v =>
      if v.is_playing then
        (true, { p with voice := some v.stop, next := true })
      else
        (false, p)
  | none => (false, p)

/-- `MusicPlayer.add_track` (lines 78-80): `self.pending.append(track)`
(append at the tail) then `self.queue_event.set()`. -/
def MusicPlayer.add_track (p : MusicPlayer) (t : Track) : MusicPlayer :=
  { p with pending := p.pending ++ [t], queue_event := true }

/-- `MusicPlayer.clear_queue` (lines 82-83): `self.pending.clear()`. -/
def MusicPlayer.clear_queue (p : MusicPlayer) : MusicPlayer :=
  { p with pending := [] }

/-- `MusicPlayer.queue_items` (lines 85-86). -/
def MusicPlayer.queue_items (p : MusicPlayer) : List Track :=
  p.pending

/-- `MusicPlayer.queue_size` (lines 88-89). -/
def MusicPlayer.queue_size (p : MusicPlayer) : Nat :=
  p.pending.length

/-- `MusicPlayer._wait_for_track` (lines 153-158): if `pending` is
non-empty, pop and return its left end (`popleft`); otherwise the
coroutine clears `queue_event` and suspends (`none` here). -/
def MusicPlayer.wait_for_track (p : MusicPlayer) : Option (Track × MusicPlayer) :=
  match p.pending with
  | [] => none
  | t :: rest => some (t, { p with pending := rest })

/-- Kinds of Python exceptions relevant to the consumer loop.
`source.cleanup()` raising `ValueError` or `OSError` is the benign
already-released condition caught at lines 144-148; any other exception
class is not caught there. -/
inductive PyErr
  | valueError
  | osError
  | otherError
deriving Repr, DecidableEq

/-- Outcomes of the external calls made during one iteration of
`player_loop`: whether building the audio source / `voice.play` raises
(lines 115-131), and whether `source.cleanup()` raises (line 145). -/
structure IterEnv where
  start_err : Option PyErr
  cleanup_err : Option PyErr
deriving Repr, DecidableEq

/-- Environment in which every external call succeeds. -/
def okEnv : IterEnv :=
  { start_err := none, cleanup_err := none }

/-- Result of one iteration of the `while True` body of `player_loop`. -/
inductive IterResult
  | blockedOnQueue (p : MusicPlayer)
  | heldBack (sleep_seconds : Nat) (p : MusicPlayer)
  | played (t : Track) (p : MusicPlayer)
  | crashed (e : PyErr) (p : MusicPlayer)
deriving Repr, DecidableEq

/-- One iteration of `MusicPlayer.player_loop` (lines 93-149), traced
line by line:
line 94 clears the `next` event; `_wait_for_track` either suspends on an
empty queue (after clearing `queue_event`, line 157) or pops the head
(line 156); lines 108-111 push the track back onto the head and sleep one
second when no connected voice client is bound; line 113 sets `current`;
lines 115-131 build the source and start playback — an exception there is
not caught inside the loop body, so the iteration crashes with `current`
already set; line 132 awaits the `next` event, set by `after_play` when
playback ends (playback runs to completion within the iteration, leaving
the voice client idle); lines 144-148 call `source.cleanup()` swallowing
only `ValueError` and `OSError`; line 149 clears `current`. -/
def MusicPlayer.player_loop_iter (env : IterEnv) (p : MusicPlayer) : IterResult :=
  let p1 : MusicPlayer := { p with next := false }
  match p1.pending with
  | [] => IterResult.blockedOnQueue { p1 with queue_event := false }
  | t :: rest =>
      match p1.voice with
      | none => IterResult.heldBack 1 { p1 with pending := t :: rest }
      | some v =>
          if !v.is_connected then
            IterResult.heldBack 1 { p1 with pending := t :: rest }
          else
            let p2 : MusicPlayer := { p1 with pending := rest, current := some t }
            match env.start_err with
            | some e => IterResult.crashed e p2
            | none =>
                let p3 : MusicPlayer :=
                  { p2 with voice := some { v with status := PlaybackStatus.idle },
                            next := true }
                match env.cleanup_err with
                | some PyErr.otherError => IterResult.crashed PyErr.otherError p3
                | _ => IterResult.played t { p3 with current := none }

/-- Iterate `player_loop_iter` with fuel, collecting the tracks played in
order. The loop stops early when it blocks on an empty queue with no
producer, or when an uncaught exception ends the consumer task. -/
def run_loop : Nat → (Nat → IterEnv) → MusicPlayer → List Track × MusicPlayer
  | 0, _, p => ([], p)
  | Nat.succ n, envs, p =>
      match MusicPlayer.player_loop_iter (envs 0) p with
      | IterResult.played t p2 =>
          let r := run_loop n (fun i => envs (i + 1)) p2
          (t :: r.1, r.2)
      | IterResult.heldBack _ p2 => run_loop n (fun i => envs (i + 1)) p2
      | IterResult.blockedOnQueue p2 => ([], p2)
      | IterResult.crashed _ p2 => ([], p2)

/-- The session registry slice of the `Music` cog: `self.players`
(line 165, a dict from guild id to `MusicPlayer` instance). Python object
identity is modelled by tagging each `MusicPlayer(...)` construction with
a fresh counter value `next_instance`, so two distinct constructions are
distinct instances even when structurally equal. -/
structure Music where
  players : List (Nat × Nat)
  next_instance : Nat
deriving Repr, DecidableEq

/-- `self.players.get(guild.id)` on the association-list model of the dict. -/
def lookupPlayer : List (Nat × Nat) → Nat → Option Nat
  | [], _ => none
  | (g, pid) :: rest, gid => if g = gid then some pid else lookupPlayer rest gid

/-- `Music.get_player` (lines 290-295): look the guild id up in
`self.players`; if absent, construct a fresh `MusicPlayer` and store it;
return the stored instance. -/
def Music.get_player (c : Music) (gid : Nat) : Nat × Music :=
  match lookupPlayer c.players gid with
  | some pid => (pid, c)
  | none =>
      (c.next_instance,
       { players := c.players ++ [(gid, c.next_instance)],
         next_instance := c.next_instance + 1 })

/-! Sample data used by the closed witness theorems. -/

def songA : Track :=
  { title := "Song A", stream_url := "stream-a", webpage_url := "page-a",
    duration := some 180, requester := 1 }

def songB : Track :=
  { title := "Song B", stream_url := "stream-b", webpage_url := "page-b",
    duration := some 200, requester := 2 }

def songC : Track :=
  { title := "Song C", stream_url := "stream-c", webpage_url := "page-c",
    duration := none, requester := 1 }

def connectedIdleVoice : VoiceClient :=
  { connected := true, status := PlaybackStatus.idle }

def emptyConnectedPlayer : MusicPlayer :=
  { pending := [], queue_event := false, next := false, current := none,
    voice := some connectedIdleVoice }

/-! Helper lemmas about one consumer-loop iteration. -/

/-- A dequeue with a connected voice client and a non-raising start plays
the head track to completion: `pending` loses its head, `current` is set
and then cleared, and the voice client ends idle but still connected. -/
theorem player_loop_iter_connected (env : IterEnv) (p : MusicPlayer) (v : VoiceClient)
    (t : Track) (rest : List Track)
    (hp : p.pending = t :: rest) (hv : p.voice = some v) (hc : v.connected = true)
    (hs : env.start_err = none) (hcl : env.cleanup_err ≠ some PyErr.otherError) :
    MusicPlayer.player_loop_iter env p =
      IterResult.played t
        { pending := rest, queue_event := p.queue_event, next := true, current := none,
          voice := some { connected := v.connected, status := PlaybackStatus.idle } } := by
  rcases env with ⟨se, ce⟩
  simp only at hs hcl
  subst hs
  cases ce with
  | none =>
      simp [MusicPlayer.player_loop_iter, hp, hv, VoiceClient.is_connected, hc]
  | some e =>
      cases e with
      | valueError =>
          simp [MusicPlayer.player_loop_iter, hp, hv, VoiceClient.is_connected, hc]
      | osError =>
          simp [MusicPlayer.player_loop_iter, hp, hv, VoiceClient.is_connected, hc]
      | otherError => exact absurd rfl hcl

/-- A dequeue with no bound or no connected voice client pushes the track
back to the head (net: `pending` unchanged) and backs off for one second. -/
theorem player_loop_iter_not_connected (env : IterEnv) (p : MusicPlayer)
    (t : Track) (rest : List Track) (hp : p.pending = t :: rest)
    (hv : p.voice = none ∨ ∃ v, p.voice = some v ∧ v.connected = false) :
    MusicPlayer.player_loop_iter env p = IterResult.heldBack 1 { p with next := false } := by
  rcases hv with hv | ⟨v, hv, hvc⟩
  · simp [MusicPlayer.player_loop_iter, hp, hv]
  · simp [MusicPlayer.player_loop_iter, hp, hv, VoiceClient.is_connected, hvc]

/-- While the transport is absent or disconnected, any number of loop
iterations plays nothing and leaves `pending` exactly as it was. -/
theorem run_loop_disconnected (n : Nat) (envs : Nat → IterEnv) (p : MusicPlayer)
    (hv : p.voice = none ∨ ∃ v, p.voice = some v ∧ v.connected = false) :
    (run_loop n envs p).1 = [] ∧ (run_loop n envs p).2.pending = p.pending := by
  induction n generalizing envs p with
  | zero => simp [run_loop]
  | succ n ih =>
      cases hp : p.pending with
      | nil =>
          simp [run_loop, MusicPlayer.player_loop_iter, hp]
      | cons t rest =>
          have hstep := player_loop_iter_not_connected (envs 0) p t rest hp hv
          have ih2 := ih (fun i => envs (i + 1)) { p with next := false } hv
          simp only [run_loop, hstep]
          exact ⟨ih2.1, by rw [ih2.2]; exact hp⟩

/-- With a connected transport throughout and no external failures, running
the loop for as many iterations as there are queued tracks plays exactly
the queue, in order. -/
theorem run_loop_fifo (q : List Track) (p : MusicPlayer) (v : VoiceClient)
    (hv : p.voice = some v) (hc : v.connected = true) (hq : p.pending = q) :
    (run_loop q.length (fun _ => okEnv) p).1 = q := by
  induction q generalizing p v with
  | nil => simp [run_loop]
  | cons t rest ih =>
      have hstep := player_loop_iter_connected okEnv p v t rest hq hv hc rfl
        (by simp [okEnv])
      simp only [List.length_cons, run_loop, hstep]
      have := ih
        { pending := rest, queue_event := p.queue_event, next := true, current := none,
          voice := some { connected := v.connected, status := PlaybackStatus.idle } }
        { connected := v.connected, status := PlaybackStatus.idle } rfl hc rfl
      simp [this]

/-! Claim theorems C1 to C5, C8 to C10, with witnesses. -/

/-- Claim C1: with a connected transport throughout, tracks enqueued in
order T1, T2, T3 are played in exactly that order: `add_track` appends to
the tail of `pending`, so after the three enqueues `pending` is
`[t1, t2, t3]`, and the consumer loop (which always pops the head via
`_wait_for_track`) plays them as `[t1, t2, t3]`. -/
theorem C1_fifo_order (p : MusicPlayer) (v : VoiceClient) (t1 t2 t3 : Track)
    (hv : p.voice = some v) (hc : v.connected = true) (hp : p.pending = []) :
    (((p.add_track t1).add_track t2).add_track t3).pending = [t1, t2, t3] ∧
    (run_loop 3 (fun _ => okEnv) (((p.add_track t1).add_track t2).add_track t3)).1 =
      [t1, t2, t3] := by
  have hpend : (((p.add_track t1).add_track t2).add_track t3).pending = [t1, t2, t3] := by
    simp [MusicPlayer.add_track, hp]
  refine ⟨hpend, ?_⟩
  have hvoice : (((p.add_track t1).add_track t2).add_track t3).voice = some v := hv
  have := run_loop_fifo [t1, t2, t3] (((p.add_track t1).add_track t2).add_track t3) v
    hvoice hc hpend
  simpa using this

/-- Witness for C1 at the three sample songs and a connected player. -/
theorem C1_fifo_order_witness :
    (((emptyConnectedPlayer.add_track songA).add_track songB).add_track songC).pending =
      [songA, songB, songC] ∧
    (run_loop 3 (fun _ => okEnv)
        (((emptyConnectedPlayer.add_track songA).add_track songB).add_track songC)).1 =
      [songA, songB, songC] :=
  C1_fifo_order emptyConnectedPlayer connectedIdleVoice songA songB songC rfl rfl rfl

/-- Claim C2: when no voice client is bound or the bound one is not
connected, a dequeue pushes the track back onto the head of `pending`
(order preserved, no track lost) and backs off for one fixed second
without playing; nothing is ever played while disconnected (`queue_size`
is preserved indefinitely); and binding a connected transport makes the
held head track play, dropping `queue_size` by one. -/
theorem C2_hold_on_disconnect (p : MusicPlayer) (t : Track) (rest : List Track)
    (hp : p.pending = t :: rest)
    (hv : p.voice = none ∨ ∃ v, p.voice = some v ∧ v.connected = false) :
    (∀ env : IterEnv,
        MusicPlayer.player_loop_iter env p = IterResult.heldBack 1 { p with next := false } ∧
        ({ p with next := false } : MusicPlayer).pending = p.pending) ∧
    (∀ (n : Nat) (envs : Nat → IterEnv),
        (run_loop n envs p).1 = [] ∧ (run_loop n envs p).2.queue_size = p.queue_size) ∧
    (∀ v2 : VoiceClient, v2.connected = true →
        ∃ p2, MusicPlayer.player_loop_iter okEnv (p.set_voice v2) =
            IterResult.played t p2 ∧ p2.queue_size + 1 = p.queue_size) := by
  refine ⟨?_, ?_, ?_⟩
  · intro env
    exact ⟨player_loop_iter_not_connected env p t rest hp hv, rfl⟩
  · intro n envs
    have h := run_loop_disconnected n envs p hv
    exact ⟨h.1, by simp [MusicPlayer.queue_size, h.2]⟩
  · intro v2 hv2
    refine ⟨{ pending := rest, queue_event := p.queue_event, next := true, current := none,
              voice := some { connected := v2.connected, status := PlaybackStatus.idle } },
            ?_, ?_⟩
    · exact player_loop_iter_connected okEnv (p.set_voice v2) v2 t rest hp rfl hv2 rfl
        (by simp [okEnv])
    · simp [MusicPlayer.queue_size, hp]

/-- Witness for C2: a player holding Song A with no voice client bound. -/
def disconnectedPlayer : MusicPlayer :=
  { pending := [songA], queue_event := true, next := false, current := none, voice := none }

/-- Witness for C2 at `disconnectedPlayer`. -/
theorem C2_hold_on_disconnect_witness :
    (∀ env : IterEnv,
        MusicPlayer.player_loop_iter env disconnectedPlayer =
          IterResult.heldBack 1 { disconnectedPlayer with next := false } ∧
        ({ disconnectedPlayer with next := false } : MusicPlayer).pending =
          disconnectedPlayer.pending) ∧
    (∀ (n : Nat) (envs : Nat → IterEnv),
        (run_loop n envs disconnectedPlayer).1 = [] ∧
        (run_loop n envs disconnectedPlayer).2.queue_size = disconnectedPlayer.queue_size) ∧
    (∀ v2 : VoiceClient, v2.connected = true →
        ∃ p2, MusicPlayer.player_loop_iter okEnv (disconnectedPlayer.set_voice v2) =
            IterResult.played songA p2 ∧
          p2.queue_size + 1 = disconnectedPlayer.queue_size) :=
  C2_hold_on_disconnect disconnectedPlayer songA [] rfl (Or.inl rfl)

/-- Claim C3: `skip_current` returns true exactly when a voice client is
bound and actively streaming; in that case it stops the client and sets
the `next` (done) event; when it returns false it changes nothing; and in
every case `pending` is left unchanged. -/
theorem C3_skip_current_spec (p : MusicPlayer) :
    (p.skip_current.1 = true ↔ ∃ v, p.voice = some v ∧ v.is_playing = true) ∧
    (∀ v, p.voice = some v → v.is_playing = true →
        p.skip_current = (true, { p with voice := some v.stop, next := true })) ∧
    (p.skip_current.1 = false → p.skip_current.2 = p) ∧
    p.skip_current.2.pending = p.pending := by
  cases hv : p.voice with
  | none => simp [MusicPlayer.skip_current, hv]
  | some v =>
      by_cases hp : v.is_playing = true
      · simp [MusicPlayer.skip_current, hv, hp]
      · simp [MusicPlayer.skip_current, hv, hp]

/-- Claim C4: `clear_queue` empties `pending` and changes nothing else:
`current`, the voice handle and both events are untouched, so an in-flight
playback is neither stopped nor signalled done. -/
theorem C4_clear_queue_spec (p : MusicPlayer) :
    p.clear_queue.pending = [] ∧
    p.clear_queue.current = p.current ∧
    p.clear_queue.voice = p.voice ∧
    p.clear_queue.next = p.next ∧
    p.clear_queue.queue_event = p.queue_event :=
  ⟨rfl, rfl, rfl, rfl, rfl⟩

/-- Failure environment for C5: building the audio source or starting
playback raises an exception that is neither `ValueError` nor `OSError`
nor `CancelledError`. -/
def failStartEnv : IterEnv :=
  { start_err := some PyErr.otherError, cleanup_err := none }

/-- Player with two queued tracks and a connected transport, used as the
failing input for C5. -/
def twoTrackConnectedPlayer : MusicPlayer :=
  { pending := [songA, songB], queue_event := true, next := false, current := none,
    voice := some connectedIdleVoice }

/-- Claim C5 (contradicted by the code): an output-start failure is NOT
caught by `player_loop` — lines 115-131 sit in no try block, the only
handler in the coroutine catches `asyncio.CancelledError` (lines 150-151) —
so the exception escapes the `while` loop, the consumer task dies with
`current` still set, and the remaining queued track is never played.
This theorem evaluates the model at the failing input: the iteration
crashes instead of advancing, and running on, nothing further is played. -/
theorem C5_start_failure_halts_loop :
    MusicPlayer.player_loop_iter failStartEnv twoTrackConnectedPlayer =
      IterResult.crashed PyErr.otherError
        { pending := [songB], queue_event := true, next := false, current := some songA,
          voice := some connectedIdleVoice } ∧
    (run_loop 5 (fun _ => failStartEnv) twoTrackConnectedPlayer).1 = [] :=
  ⟨rfl, rfl⟩

/-- Claim C8: after playback ends, `source.cleanup()` raising the benign
already-released `ValueError` or `OSError` is swallowed (lines 144-148):
the iteration still completes as a normal play, `current` is cleared and
the loop proceeds with the rest of the queue. -/
theorem C8_cleanup_benign (p : MusicPlayer) (v : VoiceClient) (t : Track)
    (rest : List Track) (e : PyErr)
    (hp : p.pending = t :: rest) (hv : p.voice = some v) (hc : v.connected = true)
    (he : e = PyErr.valueError ∨ e = PyErr.osError) :
    MusicPlayer.player_loop_iter { start_err := none, cleanup_err := some e } p =
      IterResult.played t
        { pending := rest, queue_event := p.queue_event, next := true, current := none,
          voice := some { connected := v.connected, status := PlaybackStatus.idle } } := by
  rcases he with he | he <;> subst he <;>
    exact player_loop_iter_connected _ p v t rest hp hv hc rfl (by simp)

/-- Witness for C8 at a concrete connected player whose cleanup raises
`ValueError`. -/
theorem C8_cleanup_benign_witness :
    MusicPlayer.player_loop_iter
        { start_err := none, cleanup_err := some PyErr.valueError }
        twoTrackConnectedPlayer =
      IterResult.played songA
        { pending := [songB], queue_event := true, next := true, current := none,
          voice := some { connected := true, status := PlaybackStatus.idle } } :=
  C8_cleanup_benign twoTrackConnectedPlayer connectedIdleVoice songA [songB]
    PyErr.valueError rfl rfl rfl (Or.inl rfl)

/-- Inserting a binding for an id that is absent makes it the one found
by a later lookup. -/
theorem lookupPlayer_append_self (l : List (Nat × Nat)) (gid x : Nat)
    (h : lookupPlayer l gid = none) :
    lookupPlayer (l ++ [(gid, x)]) gid = some x := by
  induction l with
  | nil => simp [lookupPlayer]
  | cons a rest ih =>
      obtain ⟨g, pid⟩ := a
      by_cases hg : g = gid
      · simp [lookupPlayer, hg] at h
      · simp only [lookupPlayer, hg, if_false] at h
        simp only [List.cons_append, lookupPlayer, hg, if_false]
        exact ih h

/-- Claim C9: `Music.get_player` is idempotent: a second call for the same
guild id returns the same player instance and leaves the registry
untouched; and the instance is created lazily, on the first call for an
id not yet in the registry. -/
theorem C9_get_player_idempotent (c : Music) (gid : Nat) :
    ((c.get_player gid).2.get_player gid).1 = (c.get_player gid).1 ∧
    ((c.get_player gid).2.get_player gid).2 = (c.get_player gid).2 ∧
    (lookupPlayer c.players gid = none →
      (c.get_player gid).2.players = c.players ++ [(gid, c.next_instance)]) := by
  cases hl : lookupPlayer c.players gid with
  | some pid => simp [Music.get_player, hl]
  | none =>
      have h2 : lookupPlayer (c.players ++ [(gid, c.next_instance)]) gid =
          some c.next_instance := lookupPlayer_append_self c.players gid c.next_instance hl
      simp [Music.get_player, hl, h2]

/-- A player whose current track is paused on the voice client, used as
the witness input for C10. -/
def pausedPlayer : MusicPlayer :=
  { pending := [songB], queue_event := true, next := false, current := some songA,
    voice := some { connected := true, status := PlaybackStatus.paused } }

/-- Claim C10: while the bound voice client is paused, `is_playing()` is
false, so `skip_current` returns false and leaves the whole player state
— voice handle, `next` event, `current` and `pending` — unchanged: a
paused track cannot be skipped through `skip_current`. -/
theorem C10_paused_not_skippable (p : MusicPlayer) (v : VoiceClient) (t : Track)
    (hv : p.voice = some v) (hs : v.status = PlaybackStatus.paused)
    (hc : p.current = some t) :
    p.skip_current = (false, p) := by
  simp [MusicPlayer.skip_current, hv, VoiceClient.is_playing, hs]

/-- Witness for C10 at `pausedPlayer`. -/
theorem C10_paused_not_skippable_witness :
    pausedPlayer.skip_current = (false, pausedPlayer) :=
  C10_paused_not_skippable pausedPlayer
    { connected := true, status := PlaybackStatus.paused } songA rfl rfl rfl

/-! Claim C6: cancellation of the consumer task.

`player_loop` suspends at exactly three awaits: `queue_event.wait()`
inside `_wait_for_track` (line 158), `next.wait()` while a track plays
(line 132), and `asyncio.sleep(1)` during the disconnected backoff
(line 110). A cancellation delivered at any of them raises
`asyncio.CancelledError` there; the loop body contains no other handler
for it and no `finally` clause, so control transfers directly to the
`except asyncio.CancelledError: pass` at lines 150-151 and the coroutine
returns. The record below is read off that control flow: the loop is not
resumed, the cancellation is not re-raised past the handler, and the
handler body executes no release call on the voice client or the audio
source. -/

inductive SuspensionPoint
  | queueWait
  | doneWait
  | backoffSleep
deriving Repr, DecidableEq

/-- Observable outcome of cancelling the consumer task at a suspension
point: whether the loop body runs again, whether the `CancelledError`
escapes the coroutine, and which Output Sink release calls are executed
between the cancellation and the end of the task. -/
structure CancelOutcome where
  loop_resumed : Bool
  cancellation_propagated : Bool
  release_actions : List String
deriving Repr, DecidableEq

/-- Effect of a cancellation delivered at each of the three suspension
points of `player_loop` (see the section comment: in all three cases the
`CancelledError` propagates straight to the `pass` handler at lines
150-151, which performs no release). -/
def player_loop_cancel : SuspensionPoint → CancelOutcome
  | SuspensionPoint.queueWait =>
      { loop_resumed := false, cancellation_propagated := false, release_actions := [] }
  | SuspensionPoint.doneWait =>
      { loop_resumed := false, cancellation_propagated := false, release_actions := [] }
  | SuspensionPoint.backoffSleep =>
      { loop_resumed := false, cancellation_propagated := false, release_actions := [] }

/-- Counterexample to C6: cancelling while suspended on the done signal —
when an Output Sink resource (the playing audio source) is certainly
bound — executes no release call at all, contradicting the clause that
the engine "attempts to release any bound Output Sink resource". -/
theorem C6_cancel_releases_nothing :
    (player_loop_cancel SuspensionPoint.doneWait).release_actions = [] := rfl

/-- Claim C6 (amended): cancelling the consumer task at any of its three
suspension points terminates the loop without resuming it and without
propagating the cancellation, but performs no release of any bound
Output Sink resource (the `CancelledError` handler body is `pass`). -/
theorem C6_cancel_terminates_quietly (sp : SuspensionPoint) :
    (player_loop_cancel sp).loop_resumed = false ∧
    (player_loop_cancel sp).cancellation_propagated = false ∧
    (player_loop_cancel sp).release_actions = [] := by
  cases sp <;> exact ⟨rfl, rfl, rfl⟩

/-! Claim C7: the pending queue never contains the current track.

This is a property of all interleavings of the producer operations with
the consumer loop, so it is settled on a small-step relation over the
engine state. Tracks are identified by Python object identity: every
call site of `add_track` in the repository passes a `Track` freshly
constructed by `Music.create_track`, so each enqueued track is a new
object; the model tags each enqueue with a fresh counter value
`next_id`. The consumer is a single sequential coroutine: it can only
dequeue while `current` is clear (line 149 clears `current` before the
loop returns to `_wait_for_track`), which the two dequeue steps record
as the premise `current = none`. -/

structure EngineState where
  pending : List Nat
  current : Option Nat
  connected : Bool
  next_id : Nat
deriving Repr, DecidableEq

/-- Initial engine state (lines 59-63: empty deque, no current track, no
voice client). -/
def initEngine : EngineState :=
  { pending := [], current := none, connected := false, next_id := 0 }

/-- One step of any party acting on a single engine: a producer calling
`add_track`, `skip_current`, `clear_queue` or `set_voice`, or the
consumer loop dequeuing (with or without a connected transport) or
observing the end of the current playback. `skip_current` touches only
the voice client and the `next` event, so on this state it is the
identity; `dequeue_hold` pops the head and pushes it straight back
(lines 108-111), also the identity on this state. -/
inductive EngineStep : EngineState → EngineState → Prop
  | add_track (s : EngineState) :
      EngineStep s { s with pending := s.pending ++ [s.next_id], next_id := s.next_id + 1 }
  | skip_current (s : EngineState) :
      EngineStep s s
  | clear_queue (s : EngineState) :
      EngineStep s { s with pending := [] }
  | set_voice (s : EngineState) (b : Bool) :
      EngineStep s { s with connected := b }
  | dequeue_play (s : EngineState) (t : Nat) (rest : List Nat)
      (hcur : s.current = none) (hpend : s.pending = t :: rest)
      (hconn : s.connected = true) :
      EngineStep s { s with pending := rest, current := some t }
  | dequeue_hold (s : EngineState) (t : Nat) (rest : List Nat)
      (hcur : s.current = none) (hpend : s.pending = t :: rest)
      (hconn : s.connected = false) :
      EngineStep s s
  | finish_track (s : EngineState) (t : Nat) (hcur : s.current = some t) :
      EngineStep s { s with current := none }

/-- States reachable from the freshly constructed engine by any
interleaving of the steps above. -/
inductive EngineReachable : EngineState → Prop
  | init : EngineReachable initEngine
  | step {s s2 : EngineState} :
      EngineReachable s → EngineStep s s2 → EngineReachable s2

/-- Inductive invariant: every queued id is below the freshness counter,
the queue has no duplicates, and the current id (when set) is below the
counter and absent from the queue. -/
def EngineInv (s : EngineState) : Prop :=
  (∀ t ∈ s.pending, t < s.next_id) ∧
  s.pending.Nodup ∧
  (∀ t, s.current = some t → t < s.next_id ∧ t ∉ s.pending)

theorem engineStep_preserves_inv {s s2 : EngineState}
    (h : EngineStep s s2) (hi : EngineInv s) : EngineInv s2 := by
  obtain ⟨hb, hn, hcur⟩ := hi
  cases h with
  | add_track =>
      refine ⟨?_, ?_, ?_⟩
      · intro t ht
        rcases List.mem_append.mp ht with ht | ht
        · exact Nat.lt_succ_of_lt (hb t ht)
        · rcases List.mem_singleton.mp ht with rfl
          exact Nat.lt_succ_self _
      · refine List.Nodup.append hn (List.nodup_singleton _) ?_
        intro a ha hmem
        rcases List.mem_singleton.mp hmem with rfl
        exact absurd (hb _ ha) (lt_irrefl _)
      · intro t ht
        obtain ⟨h1, h2⟩ := hcur t ht
        refine ⟨Nat.lt_succ_of_lt h1, ?_⟩
        intro hmem
        rcases List.mem_append.mp hmem with hmem | hmem
        · exact h2 hmem
        · rcases List.mem_singleton.mp hmem with rfl
          exact absurd h1 (lt_irrefl _)
  | skip_current => exact ⟨hb, hn, hcur⟩
  | clear_queue =>
      refine ⟨by simp, List.nodup_nil, ?_⟩
      intro t ht
      exact ⟨(hcur t ht).1, by simp⟩
  | set_voice b => exact ⟨hb, hn, hcur⟩
  | dequeue_play t rest hcur2 hpend hconn =>
      have hbrest : ∀ x ∈ rest, x < s.next_id := by
        intro x hx
        exact hb x (by rw [hpend]; exact List.mem_cons_of_mem _ hx)
      have hrest : rest.Nodup ∧ t ∉ rest := by
        rw [hpend] at hn
        exact ⟨hn.of_cons, (List.nodup_cons.mp hn).1⟩
      refine ⟨hbrest, hrest.1, ?_⟩
      intro x hx
      have hx2 : t = x := by simpa using hx
      subst hx2
      exact ⟨hb t (by rw [hpend]; exact List.mem_cons_self _ _), hrest.2⟩
  | dequeue_hold t rest hcur2 hpend hconn => exact ⟨hb, hn, hcur⟩
  | finish_track t hcur2 =>
      refine ⟨hb, hn, ?_⟩
      intro x hx
      simp at hx

theorem engineReachable_inv {s : EngineState} (h : EngineReachable s) : EngineInv s := by
  induction h with
  | init =>
      refine ⟨?_, List.nodup_nil, ?_⟩
      · intro t ht; simp [initEngine] at ht
      · intro t ht; simp [initEngine] at ht
  | step _ hs ih => exact engineStep_preserves_inv hs ih

/-- Claim C7: in every engine state reachable by any interleaving of
enqueue, skip, clear, transport binding and consumer-loop steps, the
`pending` queue never contains the track referenced by `current`. -/
theorem C7_current_not_in_pending (s : EngineState) (h : EngineReachable s)
    (t : Nat) (hcur : s.current = some t) : t ∉ s.pending :=
  ((engineReachable_inv h).2.2 t hcur).2

/-- A concrete reachable state with a current track and a non-empty
queue: two enqueues, a transport bind, then a dequeue. -/
def demoEngineState : EngineState :=
  { pending := [1], current := some 0, connected := true, next_id := 2 }

theorem demoEngineState_reachable : EngineReachable demoEngineState := by
  have h0 : EngineReachable initEngine := EngineReachable.init
  have h1 := EngineReachable.step h0 (EngineStep.add_track initEngine)
  have h2 := EngineReachable.step h1 (EngineStep.add_track _)
  have h3 := EngineReachable.step h2 (EngineStep.set_voice _ true)
  have h4 := EngineReachable.step h3 (EngineStep.dequeue_play _ 0 [1] rfl rfl rfl)
  exact h4

/-- Witness for C7 at `demoEngineState`. -/
theorem C7_current_not_in_pending_witness :
    demoEngineState.current = some 0 ∧ (0 : Nat) ∉ demoEngineState.pending :=
  ⟨rfl, C7_current_not_in_pending demoEngineState demoEngineState_reachable 0 rfl⟩
